import Mathlib

/-!
Shallow embedding of the submission/grading subsystem of the
student-cabinet MVP backend (src/app.py) over explicit relational state.

Database tables become lists of rows; SQLite statements become list
operations; HTTP exceptions become `Except` errors carrying the status
code and message.  The `with get_db() as conn:` context manager commits
on success and rolls back on an exception, so an operation that raises
mid-way returns the ORIGINAL database state; on-disk writes are not
transactional and survive such a rollback, which the embedding models by
returning the database and the disk separately.
-/

namespace StudentCabinet

/-- HTTP-style error: `HTTPException(code, msg)` from app.py. -/
structure HErr where
  code : Nat
  msg : String
deriving DecidableEq

deriving instance DecidableEq for Except

/-- Constant `MAX_FILE_SIZE = 10 * 1024 * 1024` from app.py. -/
def MAX_FILE_SIZE : Nat := 10 * 1024 * 1024

/-- Digit-string to number, used to model Python `int(...)` on an
all-digit string. -/
def natOfDigits (l : List Char) : Nat :=
  l.foldl (fun a c => a * 10 + (c.toNat - 48)) 0

/-- Character class of `VALID_ID_PATTERN = ^[A-Za-z0-9\-_]+$`. -/
def validIdChar (c : Char) : Bool :=
  (('A' ≤ c && c ≤ 'Z') || ('a' ≤ c && c ≤ 'z') || ('0' ≤ c && c ≤ '9')
    || c = '-' || c = '_')

/-- Python `str.strip()`: drop leading and trailing whitespace. -/
def pyStrip (s : String) : String :=
  String.mk (((s.toList.dropWhile Char.isWhitespace).reverse.dropWhile
    Char.isWhitespace).reverse)

/-- `validate_id` from app.py: strip, then require the whole cleaned id
to match `VALID_ID_PATTERN`, else HTTP 400. -/
def validate_id (user_id : String) : Except HErr String :=
  let id_clean := pyStrip user_id
  if id_clean = "" ∨ ¬ (id_clean.toList.all validIdChar) then
    .error ⟨400, "Некорректный идентификатор"⟩
  else .ok id_clean

/-- Gregorian leap-year test, as in Python `datetime`. -/
def isLeap (y : Nat) : Bool := (y % 4 = 0 && y % 100 ≠ 0) || y % 400 = 0

/-- Day count of month `m` in year `y`. -/
def daysInMonth (y m : Nat) : Nat :=
  if m = 2 then (if isLeap y then 29 else 28)
  else if m = 4 || m = 6 || m = 9 || m = 11 then 30 else 31

/-- Validity of `datetime(y, m, d)` in Python (MINYEAR 1, MAXYEAR 9999). -/
def isValidDate (y m d : Nat) : Bool :=
  1 ≤ y && y ≤ 9999 && 1 ≤ m && m ≤ 12 && 1 ≤ d && d ≤ daysInMonth y m

/-- Left-pad a numeral with zeros to width `w`. -/
def padZeros (w n : Nat) : String :=
  let s := toString n
  String.mk (List.replicate (w - s.length) '0') ++ s

/-- `strftime("%Y-%m-%d")` on a valid date. -/
def formatDate (y m d : Nat) : String :=
  padZeros 4 y ++ "-" ++ padZeros 2 m ++ "-" ++ padZeros 2 d

/-- `normalize_birth_date` from app.py: keep only digits of the stripped
input, read DDMMYYYY (8 digits) or DDMMYY (6 digits, two-digit year ≤ 25
mapping to 2000s else 1900s), return the ISO date when calendar-valid. -/
def normalize_birth_date (raw : String) : Option String :=
  if raw = "" then none
  else
    let ds := (pyStrip raw).toList.filter Char.isDigit
    let parsed : Option (Nat × Nat × Nat) :=
      if ds.length = 8 then
        some (natOfDigits (ds.drop 4), natOfDigits ((ds.drop 2).take 2),
          natOfDigits (ds.take 2))
      else if ds.length = 6 then
        let yy := natOfDigits (ds.drop 4)
        let y := if yy ≤ 25 then 2000 + yy else 1900 + yy
        some (y, natOfDigits ((ds.drop 2).take 2), natOfDigits (ds.take 2))
      else none
    match parsed with
    | none => none
    | some (y, m, d) =>
      if isValidDate y m d then some (formatDate y m d) else none

/-- `sanitize_filename` from app.py: keep alphanumerics and `._-`,
replace every other character with `_`, truncate to 100 characters. -/
def sanitize_filename (filename : String) : String :=
  String.mk ((filename.toList.map
    (fun c => if c.isAlphanum || c = '.' || c = '_' || c = '-' then c
      else '_')).take 100)

/-- Row of the `students` table (columns used by the handlers). -/
structure StudentRow where
  id : Nat
  student_id : String
  birth_date : String
  last_name : String
  first_name : String
deriving DecidableEq

/-- Row of the `teachers` table (columns used by the handlers). -/
structure TeacherRow where
  id : Nat
  teacher_id : String
  birth_date : String
  last_name : String
  first_name : String
deriving DecidableEq

/-- Row of the `subjects` table. -/
structure SubjectRow where
  id : Nat
  name : String
deriving DecidableEq

/-- Row of the `assignments` table (columns used by the handlers). -/
structure AssignmentRow where
  id : Nat
  subject_id : Nat
deriving DecidableEq

/-- Row of the `submissions` table.  `status` and `review` are NULL
until graded; `submitted_at` is set on creation. -/
structure SubmissionRow where
  id : Nat
  student_id : Nat
  assignment_id : Nat
  status : Option String
  review : Option String
  submitted_at : String
deriving DecidableEq

/-- Row of the `submission_files` table. -/
structure SubmissionFileRow where
  id : Nat
  submission_id : Nat
  file_path : String
deriving DecidableEq

/-- Row of the `grades` table. -/
structure GradeRow where
  student_id : Nat
  subject_id : Nat
  grade : Option Nat
  status : String
  review : Option String
  graded_at : String
deriving DecidableEq

/-- The relational database.  `nextSubmissionId` / `nextFileId` model
the AUTOINCREMENT surrogate-key counters. -/
structure DB where
  students : List StudentRow
  teachers : List TeacherRow
  subjects : List SubjectRow
  assignments : List AssignmentRow
  submissions : List SubmissionRow
  submission_files : List SubmissionFileRow
  grades : List GradeRow
  nextSubmissionId : Nat
  nextFileId : Nat
deriving DecidableEq

/-- Whole persistent state: the database plus the set of on-disk file
paths under the storage root. -/
structure Sys where
  db : DB
  disk : List String
deriving DecidableEq

/-- Predicate of the `WHERE student_id = ? AND assignment_id = ?`
lookup on `submissions`. -/
def subPair (u a : Nat) (s : SubmissionRow) : Bool :=
  s.student_id = u && s.assignment_id = a

/-- Predicate of the `(student_id, subject_id)` key on `grades`. -/
def gradePair (u subj : Nat) (g : GradeRow) : Bool :=
  g.student_id = u && g.subject_id = subj

/-- `login` (`POST /api/login`) from app.py, up to the deterministic
outcome: session-token generation is random and abstracted away, so
success returns the matched student's internal id.  Identifier
validation, birth-date normalization and the single combined
`(student_id, birth_date)` lookup are exactly the handler's. -/
def login (db : DB) (student_id password : String) : Except HErr Nat :=
  match validate_id student_id with
  | .error e => .error e
  | .ok clean_id =>
    match normalize_birth_date password with
    | none => .error ⟨400, "Неверный формат даты рождения. Используйте ДД.ММ.ГГГГ"⟩
    | some birth_date =>
      match db.students.find?
          (fun s => s.student_id = clean_id && s.birth_date = birth_date) with
      | none => .error ⟨401, "Неверный номер студенческого или дата рождения"⟩
      | some st => .ok st.id

/-- `teacher_login` (`POST /api/teacher/login`) from app.py, abstracted
like `login`. -/
def teacher_login (db : DB) (teacher_id password : String) : Except HErr Nat :=
  match validate_id teacher_id with
  | .error e => .error e
  | .ok clean_id =>
    match normalize_birth_date password with
    | none => .error ⟨400, "Неверный формат даты рождения. Используйте ДД.ММ.ГГГГ"⟩
    | some birth_date =>
      match db.teachers.find?
          (fun t => t.teacher_id = clean_id && t.birth_date = birth_date) with
      | none => .error ⟨401, "Неверный ID преподавателя или дата рождения"⟩
      | some t => .ok t.id

/-- One uploaded file as the handler sees it: original name and size in
bytes (`UploadFile.filename`, `UploadFile.size`). -/
structure FUpload where
  filename : String
  size : Nat
deriving DecidableEq

/-- Writing bytes to `file_path` with `open(file_path, "wb")`: creates
the file, or overwrites it if the path already exists. -/
def diskWrite (disk : List String) (p : String) : List String :=
  if disk.contains p then disk else disk ++ [p]

/-- Outcome of `submit_work`: the database (rolled back to the caller's
state when the handler raised), the disk (never rolled back), and the
HTTP result carrying `saved_count` on success. -/
structure SubmitOut where
  db : DB
  disk : List String
  result : Except HErr Nat
deriving DecidableEq

/-- Per-file loop of `submit_work`: skip empty names, reject a file
over `MAX_FILE_SIZE` with HTTP 400 naming it, otherwise write
`{timestamp}_{sanitized}` under `file_dir` and insert a
`submission_files` row. -/
def saveFiles (file_dir : String) (submission_id : Nat) (now : String) :
    List FUpload → DB → List String → Nat → DB × List String × Except HErr Nat
  | [], db, disk, saved_count => (db, disk, .ok saved_count)
  | f :: rest, db, disk, saved_count =>
    if f.filename = "" then
      saveFiles file_dir submission_id now rest db disk saved_count
    else if MAX_FILE_SIZE < f.size then
      (db, disk,
        .error ⟨400, "Файл " ++ f.filename ++ " слишком большой (макс. 10 МБ)"⟩)
    else
      let safe_name := sanitize_filename f.filename
      let file_path := file_dir ++ "/" ++ now ++ "_" ++ safe_name
      let disk1 := diskWrite disk file_path
      let db1 := { db with
        submission_files :=
          db.submission_files ++ [⟨db.nextFileId, submission_id, file_path⟩],
        nextFileId := db.nextFileId + 1 }
      saveFiles file_dir submission_id now rest db1 disk1 (saved_count + 1)

/-- The `INSERT OR IGNORE INTO submissions` statement of `submit_work`:
insert-if-absent on the `(student_id, assignment_id)` unique key
declared by the schema. -/
def ensureSubmission (db : DB) (user_id assignment_id : Nat) (now : String) : DB :=
  if db.submissions.any (subPair user_id assignment_id) then db
  else { db with
    submissions := db.submissions ++
      [⟨db.nextSubmissionId, user_id, assignment_id, none, none, now⟩]
    nextSubmissionId := db.nextSubmissionId + 1 }

/-- `submit_work` (`POST /api/submit/{assignment_id}`) from app.py for
an authenticated student `user_id`.  `now` stands for the wall clock
used both for `submitted_at` and for the timestamp filename prefix.
Rejects an empty/all-unnamed selection (400) and an unknown assignment
(404); `INSERT OR IGNORE` into `submissions` is insert-if-absent on the
`(student_id, assignment_id)` unique key declared by the schema; then
runs the per-file loop.  An exception rolls the transaction back, so
the returned `db` is the caller's on any error, while `disk` keeps the
writes already made. -/
def submit_work (sys : Sys) (user_id assignment_id : Nat)
    (files : List FUpload) (now : String) : SubmitOut :=
  if files = [] ∨ files.all (fun f => f.filename = "") then
    ⟨sys.db, sys.disk, .error ⟨400, "Не выбраны файлы"⟩⟩
  else if ¬ (sys.db.assignments.any (fun a => a.id = assignment_id)) then
    ⟨sys.db, sys.disk, .error ⟨404, "Задание не найдено"⟩⟩
  else
    let db1 := ensureSubmission sys.db user_id assignment_id now
    match db1.submissions.find? (subPair user_id assignment_id) with
    | none => ⟨sys.db, sys.disk, .error ⟨500, "unreachable"⟩⟩
    | some sub =>
      let file_dir :=
        "storage/submissions/" ++ toString user_id ++ "/" ++ toString assignment_id
      match saveFiles file_dir sub.id now files db1 sys.disk 0 with
      | (db2, disk2, .ok n) => ⟨db2, disk2, .ok n⟩
      | (_, disk2, .error e) => ⟨sys.db, disk2, .error e⟩

/-- Label table `status_mapping` of `set_grade`, with the
`.get(status_input, "submitted")` default. -/
def status_mapping (status_input : String) : String :=
  if status_input = "зачёт" then "approved"
  else if status_input = "сдано" then "approved"
  else if status_input = "не зачтено" then "rejected"
  else if status_input = "не допущен" then "rejected"
  else if status_input = "не сдано" then "rejected"
  else if status_input = "принят на рассмотрение" then "in_review"
  else "submitted"

/-- Grade upsert of `set_grade`: `INSERT ... ON CONFLICT(student_id,
subject_id) DO UPDATE` against the unique `(student_id, subject_id)`
key declared by the schema — update the conflicting row in place, else
append a new row. -/
def upsertGrade (gs : List GradeRow) (u subj : Nat) (grade_value : Option Nat)
    (status_input : String) (review : Option String) (now : String) :
    List GradeRow :=
  if gs.any (gradePair u subj) then
    gs.map (fun g => if gradePair u subj g then
      { g with
        grade := grade_value
        status := status_input
        review := review
        graded_at := now } else g)
  else
    gs ++ [⟨u, subj, grade_value, status_input, review, now⟩]

/-- Rejection side effect of `set_grade`: when the label is
"не зачтено", look up the pair's Submission; if present, best-effort
delete the on-disk files recorded for it (`os.remove` of a path not on
disk raises and the `try/except` swallows it, which removing from the
disk list captures) and delete its `submission_files` rows.  The
Submission row itself is not touched. -/
def rejectionCleanup (db : DB) (disk : List String)
    (student_id_int assignment_id : Nat) : DB × List String :=
  match db.submissions.find? (subPair student_id_int assignment_id) with
  | some sub =>
    let file_paths := (db.submission_files.filter
      (fun f => f.submission_id = sub.id)).map (·.file_path)
    let kept := db.submission_files.filter
      (fun f => ¬ (f.submission_id = sub.id))
    ({ db with submission_files := kept },
     disk.filter (fun p => ¬ (file_paths.contains p)))
  | none => (db, disk)

/-- Body of `set_grade` after student and subject resolved: rejection
cleanup when the label is "не зачтено", then `UPDATE submissions SET
status, review WHERE student_id AND assignment_id`, then the grade
upsert.  No step after resolution can raise. -/
def set_grade_core (db : DB) (disk : List String)
    (student_id_int subject_id_int assignment_id : Nat)
    (status_input : String) (review : Option String) (now : String) : Sys :=
  let cleaned :=
    if status_input = "не зачтено" then
      rejectionCleanup db disk student_id_int assignment_id
    else (db, disk)
  let db1 := cleaned.1
  let db_status := status_mapping status_input
  let db2 := { db1 with submissions := db1.submissions.map (fun s =>
    if subPair student_id_int assignment_id s then
      { s with
        status := some db_status
        review := review } else s) }
  let grade_value : Option Nat :=
    if status_input = "зачёт" ∨ status_input = "сдано" then some 100
    else none
  let newGrades := upsertGrade db2.grades student_id_int subject_id_int
    grade_value status_input review now
  { db := { db2 with grades := newGrades }, disk := cleaned.2 }

/-- `set_grade` (`POST /api/teacher/grade`) from app.py for an
authenticated teacher.  Validates the external student id, resolves
student and subject (404 when absent), then runs the non-failing core.
`now` stands for `CURRENT_TIMESTAMP`. -/
def set_grade (sys : Sys) (student_id subject_name : String)
    (assignment_id : Nat) (status_input : String) (review : Option String)
    (now : String) : Except HErr Sys :=
  match validate_id student_id with
  | .error e => .error e
  | .ok clean_student_id =>
    match sys.db.students.find? (fun s => s.student_id = clean_student_id) with
    | none => .error ⟨404, "Студент не найден"⟩
    | some stu =>
      match sys.db.subjects.find? (fun s => s.name = subject_name) with
      | none => .error ⟨404, "Предмет не найден"⟩
      | some subj =>
        .ok (set_grade_core sys.db sys.disk stu.id subj.id assignment_id
          status_input review now)

/-- Substring test for `".." in path`. -/
def hasDotDot : List Char → Bool
  | '.' :: '.' :: _ => true
  | _ :: rest => hasDotDot rest
  | [] => false

/-- Leading-slash test for `path.startswith("/")`. -/
def startsWithSlash (s : String) : Bool :=
  match s.toList with
  | c :: _ => c = '/'
  | [] => false

/-- `download_file` (`GET /download/{path}`) from app.py, parametrized
by the two filesystem oracles the handler consults: `is_file p` is
`Path(p).is_file()`, and `resolveRel p` is
`p.resolve().relative_to(Path("storage").resolve())` — `some` of the
relative part when the resolved path sits under the storage root,
`none` when `relative_to` raises `ValueError`.  The traversal guard
runs before either oracle is consulted. -/
def download_file (is_file : String → Bool) (resolveRel : String → Option String)
    (path : String) : Except HErr String :=
  if hasDotDot path.toList || startsWithSlash path then
    .error ⟨400, "Некорректный путь"⟩
  else
    let full_path := "storage/" ++ path
    if ¬ (is_file full_path) then .error ⟨404, "Файл не найден"⟩
    else
      match resolveRel full_path with
      | none => .error ⟨400, "Доступ запрещён"⟩
      | some rel => .ok ("storage/" ++ rel)

/-! ### Helper lemmas about the embedded operations -/

theorem diskWrite_mem_self (disk : List String) (p : String) :
    p ∈ diskWrite disk p := by
  unfold diskWrite
  split
  · next h => exact List.mem_of_elem_eq_true h
  · exact List.mem_append_right _ (List.mem_singleton.mpr rfl)

theorem diskWrite_mem_of (disk : List String) (p q : String) (h : q ∈ disk) :
    q ∈ diskWrite disk p := by
  unfold diskWrite
  split
  · exact h
  · exact List.mem_append_left _ h

/-- Shape of the per-file loop on the database: it only appends
`submission_files` rows, all owned by the given submission, and bumps
the id counter accordingly. -/
theorem saveFiles_db_shape (file_dir : String) (sid : Nat) (now : String) :
    ∀ (fs : List FUpload) (db : DB) (disk : List String) (c : Nat),
      ∃ new, (saveFiles file_dir sid now fs db disk c).1 =
          { db with
            submission_files := db.submission_files ++ new
            nextFileId := db.nextFileId + new.length } ∧
        ∀ f ∈ new, f.submission_id = sid := by
  intro fs
  induction fs with
  | nil =>
    intro db disk c
    refine ⟨[], ?_, by simp⟩
    simp [saveFiles]
  | cons f rest ih =>
    intro db disk c
    by_cases hn : f.filename = ""
    · obtain ⟨new, h1, h2⟩ := ih db disk c
      refine ⟨new, ?_, h2⟩
      simpa [saveFiles, hn] using h1
    · by_cases hsz : MAX_FILE_SIZE < f.size
      · refine ⟨[], ?_, by simp⟩
        simp [saveFiles, hn, hsz]
      · set db1 : DB := { db with
          submission_files := db.submission_files ++
            [⟨db.nextFileId, sid, file_dir ++ "/" ++ now ++ "_" ++
              sanitize_filename f.filename⟩]
          nextFileId := db.nextFileId + 1 } with hdb1
        obtain ⟨new, h1, h2⟩ := ih db1
          (diskWrite disk (file_dir ++ "/" ++ now ++ "_" ++
            sanitize_filename f.filename)) (c + 1)
        refine ⟨⟨db.nextFileId, sid, file_dir ++ "/" ++ now ++ "_" ++
          sanitize_filename f.filename⟩ :: new, ?_, ?_⟩
        · rw [show saveFiles file_dir sid now (f :: rest) db disk c =
            saveFiles file_dir sid now rest db1
              (diskWrite disk (file_dir ++ "/" ++ now ++ "_" ++
                sanitize_filename f.filename)) (c + 1) by
            simp [saveFiles, hn, hsz, hdb1, diskWrite]]
          rw [h1, hdb1]
          simp [Nat.add_comm, Nat.add_assoc, Nat.add_left_comm]
        · intro g hg
          rcases List.mem_cons.mp hg with h | h
          · subst h; rfl
          · exact h2 g h

theorem saveFiles_cons_skip (d : String) (sid : Nat) (now : String)
    (f : FUpload) (rest : List FUpload) (db : DB) (disk : List String) (c : Nat)
    (hn : f.filename = "") :
    saveFiles d sid now (f :: rest) db disk c =
      saveFiles d sid now rest db disk c := by
  simp [saveFiles, hn]

theorem saveFiles_cons_big (d : String) (sid : Nat) (now : String)
    (f : FUpload) (rest : List FUpload) (db : DB) (disk : List String) (c : Nat)
    (hn : ¬ f.filename = "") (hsz : MAX_FILE_SIZE < f.size) :
    saveFiles d sid now (f :: rest) db disk c =
      (db, disk, .error ⟨400,
        "Файл " ++ f.filename ++ " слишком большой (макс. 10 МБ)"⟩) := by
  simp [saveFiles, hn, hsz]

theorem saveFiles_cons_save (d : String) (sid : Nat) (now : String)
    (f : FUpload) (rest : List FUpload) (db : DB) (disk : List String) (c : Nat)
    (hn : ¬ f.filename = "") (hsz : ¬ MAX_FILE_SIZE < f.size) :
    saveFiles d sid now (f :: rest) db disk c =
      saveFiles d sid now rest
        { db with
          submission_files := db.submission_files ++
            [⟨db.nextFileId, sid,
              d ++ "/" ++ now ++ "_" ++ sanitize_filename f.filename⟩]
          nextFileId := db.nextFileId + 1 }
        (diskWrite disk (d ++ "/" ++ now ++ "_" ++ sanitize_filename f.filename))
        (c + 1) := by
  simp [saveFiles, hn, hsz]

/-- The loop never removes anything from the disk. -/
theorem saveFiles_disk_mono (d : String) (sid : Nat) (now : String) :
    ∀ (fs : List FUpload) (db : DB) (disk : List String) (c : Nat) (q : String),
      q ∈ disk → q ∈ (saveFiles d sid now fs db disk c).2.1 := by
  intro fs
  induction fs with
  | nil => intro db disk c q h; simpa [saveFiles] using h
  | cons f rest ih =>
    intro db disk c q h
    by_cases hn : f.filename = ""
    · rw [saveFiles_cons_skip d sid now f rest db disk c hn]; exact ih _ _ _ _ h
    · by_cases hsz : MAX_FILE_SIZE < f.size
      · rw [saveFiles_cons_big d sid now f rest db disk c hn hsz]; exact h
      · rw [saveFiles_cons_save d sid now f rest db disk c hn hsz]
        exact ih _ _ _ _ (diskWrite_mem_of _ _ _ h)

/-- When every named file is within the size cap, the loop succeeds. -/
theorem saveFiles_ok (d : String) (sid : Nat) (now : String) :
    ∀ (fs : List FUpload) (db : DB) (disk : List String) (c : Nat),
      (∀ f ∈ fs, ¬ f.filename = "" → f.size ≤ MAX_FILE_SIZE) →
      ∃ n, (saveFiles d sid now fs db disk c).2.2 = .ok n := by
  intro fs
  induction fs with
  | nil => intro db disk c _; exact ⟨c, by simp [saveFiles]⟩
  | cons f rest ih =>
    intro db disk c hall
    by_cases hn : f.filename = ""
    · rw [saveFiles_cons_skip d sid now f rest db disk c hn]
      exact ih _ _ _ (fun g hg => hall g (List.mem_cons_of_mem _ hg))
    · have hle : f.size ≤ MAX_FILE_SIZE := hall f (List.mem_cons_self _ _) hn
      rw [saveFiles_cons_save d sid now f rest db disk c hn (Nat.not_lt.mpr hle)]
      exact ih _ _ _ (fun g hg => hall g (List.mem_cons_of_mem _ hg))

/-- When a named file over the cap is reached, the loop raises HTTP 400
naming it, and the bytes of every named in-limit file processed before
it are already on disk and stay there. -/
theorem saveFiles_err (d : String) (sid : Nat) (now : String)
    (g : FUpload) (post : List FUpload)
    (hgn : ¬ g.filename = "") (hgsz : MAX_FILE_SIZE < g.size) :
    ∀ (pre : List FUpload) (db : DB) (disk : List String) (c : Nat),
      (∀ f ∈ pre, ¬ f.filename = "" → f.size ≤ MAX_FILE_SIZE) →
      (saveFiles d sid now (pre ++ g :: post) db disk c).2.2 =
        .error ⟨400,
          "Файл " ++ g.filename ++ " слишком большой (макс. 10 МБ)"⟩ ∧
      ∀ f ∈ pre, ¬ f.filename = "" →
        (d ++ "/" ++ now ++ "_" ++ sanitize_filename f.filename) ∈
          (saveFiles d sid now (pre ++ g :: post) db disk c).2.1 := by
  intro pre
  induction pre with
  | nil =>
    intro db disk c _
    rw [List.nil_append, saveFiles_cons_big d sid now g post db disk c hgn hgsz]
    exact ⟨rfl, by simp⟩
  | cons p t ih =>
    intro db disk c hall
    by_cases hpn : p.filename = ""
    · rw [List.cons_append, saveFiles_cons_skip d sid now p _ db disk c hpn]
      obtain ⟨h1, h2⟩ := ih db disk c (fun f hf => hall f (List.mem_cons_of_mem _ hf))
      refine ⟨h1, ?_⟩
      intro f hf hfn
      rcases List.mem_cons.mp hf with h | h
      · exact absurd (h ▸ hpn) hfn
      · exact h2 f h hfn
    · have hle : p.size ≤ MAX_FILE_SIZE := hall p (List.mem_cons_self _ _) hpn
      rw [List.cons_append,
        saveFiles_cons_save d sid now p _ db disk c hpn (Nat.not_lt.mpr hle)]
      obtain ⟨h1, h2⟩ := ih _ _ (c + 1) (fun f hf => hall f (List.mem_cons_of_mem _ hf))
      refine ⟨h1, ?_⟩
      intro f hf hfn
      rcases List.mem_cons.mp hf with h | h
      · subst h
        exact saveFiles_disk_mono d sid now _ _ _ _ _ (diskWrite_mem_self _ _)
      · exact h2 f h hfn

/-- After `ensureSubmission`, a row for the pair is always found. -/
theorem ensureSubmission_find (db : DB) (u a : Nat) (now : String) :
    ∃ sub, (ensureSubmission db u a now).submissions.find? (subPair u a) =
      some sub := by
  unfold ensureSubmission
  by_cases h : db.submissions.any (subPair u a)
  · rw [if_pos h]
    obtain ⟨x, hx, px⟩ := List.any_eq_true.mp h
    have hex : ∃ x ∈ db.submissions, subPair u a x := ⟨x, hx, px⟩
    have hs : (db.submissions.find? (subPair u a)).isSome :=
      List.find?_isSome.mpr hex
    obtain ⟨sub, hsub⟩ := Option.isSome_iff_exists.mp hs
    exact ⟨sub, hsub⟩
  · rw [if_neg h]
    refine ⟨⟨db.nextSubmissionId, u, a, none, none, now⟩, ?_⟩
    have hnone : db.submissions.find? (subPair u a) = none := by
      rw [List.find?_eq_none]
      intro x hx px
      exact h (List.any_eq_true.mpr ⟨x, hx, px⟩)
    show (db.submissions ++
      [(⟨db.nextSubmissionId, u, a, none, none, now⟩ : SubmissionRow)]).find?
        (subPair u a) = some ⟨db.nextSubmissionId, u, a, none, none, now⟩
    rw [List.find?_append, hnone]
    simp [subPair]

/-- When a row for the pair already exists, `INSERT OR IGNORE` leaves
the table untouched. -/
theorem ensureSubmission_of_any (db : DB) (u a : Nat) (now : String)
    (h : db.submissions.any (subPair u a) = true) :
    ensureSubmission db u a now = db := by
  unfold ensureSubmission
  rw [if_pos h]

/-! ### Concrete state used by witnesses and counterexamples -/

/-- A small populated database: one student (internal id 7, external
"S1"), one teacher, one subject, one assignment, one existing
submission (id 10) with one recorded file. -/
def dbA : DB :=
  { students := [⟨7, "S1", "2001-05-15", "Иванов", "Иван"⟩]
    teachers := [⟨4, "T-MATH-01", "1975-03-12", "Смирнов", "Пётр"⟩]
    subjects := [⟨3, "Математика"⟩]
    assignments := [⟨1, 3⟩]
    submissions := [⟨10, 7, 1, none, none, "T0"⟩]
    submission_files := [⟨20, 10, "storage/submissions/7/1/T0_a.pdf"⟩]
    grades := []
    nextSubmissionId := 11
    nextFileId := 21 }

/-- `dbA` plus the matching on-disk file. -/
def sysA : Sys := ⟨dbA, ["storage/submissions/7/1/T0_a.pdf"]⟩

/-- Unfolding: an empty or all-unnamed selection is rejected. -/
theorem submit_work_empty (sys : Sys) (u a : Nat) (files : List FUpload)
    (now : String)
    (h1 : files = [] ∨ files.all (fun f => f.filename = "") = true) :
    submit_work sys u a files now =
      ⟨sys.db, sys.disk, .error ⟨400, "Не выбраны файлы"⟩⟩ := by
  simp only [submit_work]
  rw [if_pos h1]

/-- Unfolding: an unknown assignment id is rejected with 404. -/
theorem submit_work_no_assignment (sys : Sys) (u a : Nat)
    (files : List FUpload) (now : String)
    (h1 : ¬ (files = [] ∨ files.all (fun f => f.filename = "") = true))
    (h2 : ¬ (sys.db.assignments.any (fun x => x.id = a) = true)) :
    submit_work sys u a files now =
      ⟨sys.db, sys.disk, .error ⟨404, "Задание не найдено"⟩⟩ := by
  simp only [submit_work]
  rw [if_neg h1, if_pos h2]

/-- Unfolding: the main path of `submit_work` runs the per-file loop on
the ensured submission row. -/
theorem submit_work_main (sys : Sys) (u a : Nat) (files : List FUpload)
    (now : String) (sub : SubmissionRow)
    (h1 : ¬ (files = [] ∨ files.all (fun f => f.filename = "") = true))
    (h2 : sys.db.assignments.any (fun x => x.id = a) = true)
    (hfind : (ensureSubmission sys.db u a now).submissions.find?
      (subPair u a) = some sub) :
    submit_work sys u a files now =
      match saveFiles ("storage/submissions/" ++ toString u ++ "/" ++ toString a)
          sub.id now files (ensureSubmission sys.db u a now) sys.disk 0 with
      | (db2, disk2, .ok n) => ⟨db2, disk2, .ok n⟩
      | (_, disk2, .error e) => ⟨sys.db, disk2, .error e⟩ := by
  simp only [submit_work]
  rw [if_neg h1, if_neg (not_not_intro h2), hfind]

/-! ### C1 -/

/-- C1: when a Submission row for `(student_id, assignment_id)` already
exists, `submit_work` never creates a second Submission row — the
submissions table is returned unchanged, so the row's status and review
fields are untouched — and every SubmissionFile row the call adds is
appended to that existing row. -/
theorem submit_no_second_submission (sys : Sys) (u a : Nat)
    (files : List FUpload) (now : String)
    (h : sys.db.submissions.any (subPair u a) = true) :
    ∃ sub, sys.db.submissions.find? (subPair u a) = some sub ∧
      (submit_work sys u a files now).db.submissions = sys.db.submissions ∧
      ∃ new, (submit_work sys u a files now).db.submission_files =
          sys.db.submission_files ++ new ∧
        ∀ f ∈ new, f.submission_id = sub.id := by
  have hens : ensureSubmission sys.db u a now = sys.db :=
    ensureSubmission_of_any sys.db u a now h
  obtain ⟨sub, hfind0⟩ := ensureSubmission_find sys.db u a now
  have hfind : sys.db.submissions.find? (subPair u a) = some sub := by
    rw [← hens]; exact hfind0
  refine ⟨sub, hfind, ?_⟩
  by_cases h1 : files = [] ∨ files.all (fun f => f.filename = "") = true
  · rw [submit_work_empty sys u a files now h1]
    exact ⟨rfl, [], by simp, by simp⟩
  · by_cases h2 : sys.db.assignments.any (fun x => x.id = a) = true
    · rw [submit_work_main sys u a files now sub h1 h2 hfind0]
      rcases hsave : saveFiles
          ("storage/submissions/" ++ toString u ++ "/" ++ toString a)
          sub.id now files (ensureSubmission sys.db u a now) sys.disk 0
        with ⟨db2, disk2, res⟩
      obtain ⟨new, hdb, hnew⟩ := saveFiles_db_shape
        ("storage/submissions/" ++ toString u ++ "/" ++ toString a)
        sub.id now files (ensureSubmission sys.db u a now) sys.disk 0
      rw [hsave] at hdb
      cases res with
      | ok n =>
        rw [hens] at hdb
        have hdb2 : db2 = { sys.db with
            submission_files := sys.db.submission_files ++ new
            nextFileId := sys.db.nextFileId + new.length } := hdb
        rw [hdb2]
        exact ⟨rfl, new, rfl, hnew⟩
      | error e =>
        exact ⟨rfl, [], by simp, by simp⟩
    · rw [submit_work_no_assignment sys u a files now h1 h2]
      exact ⟨rfl, [], by simp, by simp⟩

/-- Witness for C1 at a concrete state: submission 10 already exists
for student 7, assignment 1. -/
theorem submit_no_second_submission_witness :
    ∃ sub, sysA.db.submissions.find? (subPair 7 1) = some sub ∧
      (submit_work sysA 7 1 [⟨"b.pdf", 3⟩] "T1").db.submissions =
        sysA.db.submissions ∧
      ∃ new, (submit_work sysA 7 1 [⟨"b.pdf", 3⟩] "T1").db.submission_files =
          sysA.db.submission_files ++ new ∧
        ∀ f ∈ new, f.submission_id = sub.id :=
  submit_no_second_submission sysA 7 1 [⟨"b.pdf", 3⟩] "T1" (by decide)

/-! ### C4 -/

/-- C4 (amended): when the file list contains a named file over the 10
MiB cap, the whole request is rejected with a ValidationError citing
that filename, and the database transaction rolls back — no Submission
or SubmissionFile row is persisted — but the on-disk bytes of the named
in-limit files processed before the oversized one remain written. -/
theorem submit_oversize_rejects_batch (sys : Sys) (u a : Nat)
    (pre post : List FUpload) (g : FUpload) (now : String)
    (hassign : sys.db.assignments.any (fun x => x.id = a) = true)
    (hpre : ∀ f ∈ pre, ¬ f.filename = "" → f.size ≤ MAX_FILE_SIZE)
    (hgn : ¬ g.filename = "") (hgsz : MAX_FILE_SIZE < g.size) :
    (submit_work sys u a (pre ++ g :: post) now).result =
      .error ⟨400,
        "Файл " ++ g.filename ++ " слишком большой (макс. 10 МБ)"⟩ ∧
    (submit_work sys u a (pre ++ g :: post) now).db = sys.db ∧
    ∀ f ∈ pre, ¬ f.filename = "" →
      ("storage/submissions/" ++ toString u ++ "/" ++ toString a ++ "/" ++
        now ++ "_" ++ sanitize_filename f.filename) ∈
        (submit_work sys u a (pre ++ g :: post) now).disk := by
  have h1 : ¬ ((pre ++ g :: post) = [] ∨
      (pre ++ g :: post).all (fun f => f.filename = "") = true) := by
    rintro (hnil | hall)
    · exact absurd (List.append_eq_nil.mp hnil).2 (by simp)
    · exact hgn (of_decide_eq_true (List.all_eq_true.mp hall g
        (List.mem_append_right _ (List.mem_cons_self _ _))))
  obtain ⟨sub, hfind⟩ := ensureSubmission_find sys.db u a now
  rw [submit_work_main sys u a (pre ++ g :: post) now sub h1 hassign hfind]
  rcases hsave : saveFiles
      ("storage/submissions/" ++ toString u ++ "/" ++ toString a)
      sub.id now (pre ++ g :: post) (ensureSubmission sys.db u a now)
      sys.disk 0 with ⟨db2, disk2, res⟩
  obtain ⟨herr, hdisk⟩ := saveFiles_err
    ("storage/submissions/" ++ toString u ++ "/" ++ toString a)
    sub.id now g post hgn hgsz pre (ensureSubmission sys.db u a now)
    sys.disk 0 hpre
  rw [hsave] at herr hdisk
  have hres : res = Except.error ⟨400,
      "Файл " ++ g.filename ++ " слишком большой (макс. 10 МБ)"⟩ := herr
  subst hres
  exact ⟨rfl, rfl, fun f hf hfn => hdisk f hf hfn⟩

/-- Counterexample for C4 as stated: at `sysA`, a batch of an in-limit
"ok.pdf" followed by an oversized "huge.pdf" is rejected citing
"huge.pdf", the database keeps no new rows, yet the stored bytes of the
preceding in-limit file persist on disk — the call does NOT persist
zero additional stored bytes. -/
theorem submit_oversize_cex :
    (submit_work sysA 7 1 [⟨"ok.pdf", 4⟩, ⟨"huge.pdf", 10485761⟩] "T3").result =
      .error ⟨400, "Файл huge.pdf слишком большой (макс. 10 МБ)"⟩ ∧
    (submit_work sysA 7 1 [⟨"ok.pdf", 4⟩, ⟨"huge.pdf", 10485761⟩] "T3").db =
      sysA.db ∧
    "storage/submissions/7/1/T3_ok.pdf" ∈
      (submit_work sysA 7 1 [⟨"ok.pdf", 4⟩, ⟨"huge.pdf", 10485761⟩] "T3").disk ∧
    ¬ "storage/submissions/7/1/T3_ok.pdf" ∈ sysA.disk := by
  decide

/-- Witness for the amended C4 at a concrete input. -/
theorem submit_oversize_rejects_batch_witness :
    (submit_work sysA 7 1 ([⟨"ok.pdf", 4⟩] ++ ⟨"huge.pdf", 10485761⟩ :: [])
        "T3").result =
      .error ⟨400,
        "Файл " ++ "huge.pdf" ++ " слишком большой (макс. 10 МБ)"⟩ ∧
    (submit_work sysA 7 1 ([⟨"ok.pdf", 4⟩] ++ ⟨"huge.pdf", 10485761⟩ :: [])
        "T3").db = sysA.db ∧
    ∀ f ∈ [(⟨"ok.pdf", 4⟩ : FUpload)], ¬ f.filename = "" →
      ("storage/submissions/" ++ toString 7 ++ "/" ++ toString 1 ++ "/" ++
        "T3" ++ "_" ++ sanitize_filename f.filename) ∈
        (submit_work sysA 7 1 ([⟨"ok.pdf", 4⟩] ++ ⟨"huge.pdf", 10485761⟩ :: [])
          "T3").disk :=
  submit_oversize_rejects_batch sysA 7 1 [⟨"ok.pdf", 4⟩] [] ⟨"huge.pdf", 10485761⟩
    "T3" (by decide) (by decide) (by decide) (by decide)

/-! ### set_grade unfolding lemmas -/

/-- The rejection cleanup touches only `submission_files` (and the
disk). -/
theorem rejectionCleanup_fields (db : DB) (disk : List String) (u a : Nat) :
    (rejectionCleanup db disk u a).1.students = db.students ∧
    (rejectionCleanup db disk u a).1.teachers = db.teachers ∧
    (rejectionCleanup db disk u a).1.subjects = db.subjects ∧
    (rejectionCleanup db disk u a).1.assignments = db.assignments ∧
    (rejectionCleanup db disk u a).1.submissions = db.submissions ∧
    (rejectionCleanup db disk u a).1.grades = db.grades := by
  unfold rejectionCleanup
  cases db.submissions.find? (subPair u a) <;> simp

/-- Unfolding: with the student id valid and student and subject
resolved, `set_grade` returns the core's state. -/
theorem set_grade_eq_ok (sys : Sys) (sid sn : String) (a : Nat) (l : String)
    (rev : Option String) (now cid : String) (stu : StudentRow)
    (subj : SubjectRow)
    (hv : validate_id sid = .ok cid)
    (hs : sys.db.students.find? (fun s => s.student_id = cid) = some stu)
    (hj : sys.db.subjects.find? (fun s => s.name = sn) = some subj) :
    set_grade sys sid sn a l rev now =
      .ok (set_grade_core sys.db sys.disk stu.id subj.id a l rev now) := by
  simp only [set_grade, hv, hs, hj]

/-- Unfolding: unknown student gives 404. -/
theorem set_grade_no_student (sys : Sys) (sid sn : String) (a : Nat)
    (l : String) (rev : Option String) (now cid : String)
    (hv : validate_id sid = .ok cid)
    (hs : sys.db.students.find? (fun s => s.student_id = cid) = none) :
    set_grade sys sid sn a l rev now = .error ⟨404, "Студент не найден"⟩ := by
  simp only [set_grade, hv, hs]

/-- Unfolding: unknown subject gives 404. -/
theorem set_grade_no_subject (sys : Sys) (sid sn : String) (a : Nat)
    (l : String) (rev : Option String) (now cid : String) (stu : StudentRow)
    (hv : validate_id sid = .ok cid)
    (hs : sys.db.students.find? (fun s => s.student_id = cid) = some stu)
    (hj : sys.db.subjects.find? (fun s => s.name = sn) = none) :
    set_grade sys sid sn a l rev now = .error ⟨404, "Предмет не найден"⟩ := by
  simp only [set_grade, hv, hs, hj]

/-- Field-level description of the core: students/teachers/subjects/
assignments are untouched, the submissions table gets the status/review
update on the pair's rows, the grades table gets the upsert, and
`submission_files` and the disk are those left by the (conditional)
rejection cleanup. -/
theorem set_grade_core_shape (db : DB) (disk : List String) (u j a : Nat)
    (l : String) (rev : Option String) (now : String) :
    (set_grade_core db disk u j a l rev now).db.students = db.students ∧
    (set_grade_core db disk u j a l rev now).db.teachers = db.teachers ∧
    (set_grade_core db disk u j a l rev now).db.subjects = db.subjects ∧
    (set_grade_core db disk u j a l rev now).db.assignments = db.assignments ∧
    (set_grade_core db disk u j a l rev now).db.submissions =
      db.submissions.map (fun s => if subPair u a s then
        { s with
          status := some (status_mapping l)
          review := rev } else s) ∧
    (set_grade_core db disk u j a l rev now).db.grades =
      upsertGrade db.grades u j
        (if l = "зачёт" ∨ l = "сдано" then some 100 else none) l rev now ∧
    (set_grade_core db disk u j a l rev now).db.submission_files =
      (if l = "не зачтено" then rejectionCleanup db disk u a
        else (db, disk)).1.submission_files ∧
    (set_grade_core db disk u j a l rev now).disk =
      (if l = "не зачтено" then rejectionCleanup db disk u a
        else (db, disk)).2 := by
  obtain ⟨f1, f2, f3, f4, f5, f6⟩ := rejectionCleanup_fields db disk u a
  by_cases hl : l = "не зачтено"
  · simp only [set_grade_core, if_pos hl]
    refine ⟨?_, ?_, ?_, ?_, ?_, ?_, ?_, ?_⟩ <;>
      simp [f1, f2, f3, f4, f5, f6]
  · simp only [set_grade_core, if_neg hl]
    refine ⟨?_, ?_, ?_, ?_, ?_, ?_, ?_, ?_⟩ <;> simp

/-- Unfolding of the cleanup when the pair's submission exists. -/
theorem rejectionCleanup_of_found (db : DB) (disk : List String) (u a : Nat)
    (sub : SubmissionRow)
    (hb : db.submissions.find? (subPair u a) = some sub) :
    rejectionCleanup db disk u a =
      ({ db with
          submission_files :=
            db.submission_files.filter (fun f => ¬ (f.submission_id = sub.id)) },
       disk.filter (fun p => ¬ (((db.submission_files.filter
          (fun f => f.submission_id = sub.id)).map (·.file_path)).contains p))) := by
  simp only [rejectionCleanup, hb]

/-- Keeping only the non-owned rows leaves no owned row. -/
theorem filter_kept_nil (l : List SubmissionFileRow) (sid : Nat) :
    ((l.filter (fun f => ¬ (f.submission_id = sid))).filter
      (fun f => f.submission_id = sid)) = [] := by
  induction l with
  | nil => rfl
  | cons x t ih =>
    by_cases h : x.submission_id = sid
    · simp [List.filter_cons, h, ih]
    · simp [List.filter_cons, h, ih]

/-- A path in the delete list never survives the disk filter. -/
theorem not_mem_filter_contains (paths disk : List String) (p : String)
    (hp : p ∈ paths) :
    ¬ p ∈ disk.filter (fun q => ¬ (paths.contains q)) := by
  intro hmem
  have h := (List.mem_filter.mp hmem).2
  exact (of_decide_eq_true h) (List.elem_eq_true_of_mem hp)

/-! ### C2 -/

/-- C2: grading with label "не зачтено" a pair that has a Submission
leaves zero SubmissionFile rows for that submission and removes every
recorded on-disk file from the disk, whatever their number and whether
or not the recorded paths were actually present on disk (`os.remove`
failures are swallowed), and the grading call still succeeds. -/
theorem reject_purges_submission_files (sys : Sys) (sid sn : String)
    (a : Nat) (rev : Option String) (now cid : String) (stu : StudentRow)
    (subj : SubjectRow) (sub : SubmissionRow)
    (hv : validate_id sid = .ok cid)
    (hs : sys.db.students.find? (fun s => s.student_id = cid) = some stu)
    (hj : sys.db.subjects.find? (fun s => s.name = sn) = some subj)
    (hb : sys.db.submissions.find? (subPair stu.id a) = some sub) :
    ∃ sys2, set_grade sys sid sn a "не зачтено" rev now = .ok sys2 ∧
      sys2.db.submission_files.filter (fun f => f.submission_id = sub.id) = [] ∧
      ∀ p ∈ (sys.db.submission_files.filter
          (fun f => f.submission_id = sub.id)).map (·.file_path),
        ¬ p ∈ sys2.disk := by
  obtain ⟨_, _, _, _, _, _, h7, h8⟩ := set_grade_core_shape sys.db sys.disk
    stu.id subj.id a "не зачтено" rev now
  refine ⟨_, set_grade_eq_ok sys sid sn a "не зачтено" rev now cid stu subj
    hv hs hj, ?_, ?_⟩
  · rw [h7, if_pos rfl,
      rejectionCleanup_of_found sys.db sys.disk stu.id a sub hb]
    exact filter_kept_nil _ _
  · intro p hp
    rw [h8, if_pos rfl,
      rejectionCleanup_of_found sys.db sys.disk stu.id a sub hb]
    exact not_mem_filter_contains _ _ _ hp

/-- Witness for C2 at `sysA`: submission 10 has one recorded file. -/
theorem reject_purges_submission_files_witness :
    ∃ sys2, set_grade sysA "S1" "Математика" 1 "не зачтено" (some "redo")
        "G1" = .ok sys2 ∧
      sys2.db.submission_files.filter (fun f => f.submission_id =
        (⟨10, 7, 1, none, none, "T0"⟩ : SubmissionRow).id) = [] ∧
      ∀ p ∈ (sysA.db.submission_files.filter (fun f => f.submission_id =
          (⟨10, 7, 1, none, none, "T0"⟩ : SubmissionRow).id)).map
          (·.file_path),
        ¬ p ∈ sys2.disk :=
  reject_purges_submission_files sysA "S1" "Математика" 1 (some "redo") "G1"
    "S1" ⟨7, "S1", "2001-05-15", "Иванов", "Иван"⟩ ⟨3, "Математика"⟩
    ⟨10, 7, 1, none, none, "T0"⟩ (by decide) (by decide) (by decide) (by decide)

/-- Updating status/review on the matching rows commutes with the pair
lookup: the first match survives with the same identity. -/
theorem find?_map_status_upd (u a : Nat) (st : Option String)
    (rev : Option String) :
    ∀ l : List SubmissionRow,
      (l.map (fun s => if subPair u a s then
        { s with
          status := st
          review := rev } else s)).find? (subPair u a) =
      (l.find? (subPair u a)).map (fun s => if subPair u a s then
        { s with
          status := st
          review := rev } else s) := by
  intro l
  induction l with
  | nil => rfl
  | cons x t ih =>
    by_cases h : subPair u a x = true
    · rw [List.map_cons, if_pos h]
      have h2 : subPair u a ({ x with
          status := st
          review := rev } : SubmissionRow) = true := h
      rw [List.find?_cons_of_pos _ h2, List.find?_cons_of_pos _ h]
      simp [h]
    · rw [List.map_cons, if_neg h, List.find?_cons_of_neg _ (by simpa using h),
        List.find?_cons_of_neg _ (by simpa using h), ih]

/-! ### C3 -/

/-- The state after grading `sysA`'s submission 10 as "не зачтено"
(falling back to `sysA` itself on error, which cannot happen here). -/
def sysR : Sys :=
  match set_grade sysA "S1" "Математика" 1 "не зачтено" (some "redo") "G1" with
  | .ok s2 => s2
  | .error _ => sysA

/-- Counterexample for C3 as stated: at `sysA`, grading submission 10
as "не зачтено" does NOT purge the Submission row — it survives as the
only row, id 10 — and the follow-up `submit_work` appends its file to
that same row 10 instead of creating a fresh Submission. -/
theorem reject_keeps_submission_row_cex :
    set_grade sysA "S1" "Математика" 1 "не зачтено" (some "redo") "G1" =
      .ok sysR ∧
    sysR.db.submissions.map (·.id) = [10] ∧
    (submit_work sysR 7 1 [⟨"new.pdf", 4⟩] "T4").db.submissions.map
      (·.id) = [10] ∧
    (submit_work sysR 7 1 [⟨"new.pdf", 4⟩] "T4").db.submission_files.map
      (·.submission_id) = [10] := by
  decide

/-- C3 (amended): grading "не зачтено" deletes only the SubmissionFile
rows; the Submission row itself survives (same id, status set to
"rejected", review updated), and a subsequent `submit_work` for the
same pair appends its new files to that surviving row — insert-if-absent
finds the row — rather than creating a fresh Submission row. -/
theorem reject_then_submit_appends_same_row (sys : Sys) (sid sn : String)
    (a : Nat) (rev : Option String) (now : String) (cid : String)
    (stu : StudentRow) (subj : SubjectRow) (sub : SubmissionRow)
    (files : List FUpload) (now2 : String)
    (hv : validate_id sid = .ok cid)
    (hs : sys.db.students.find? (fun s => s.student_id = cid) = some stu)
    (hj : sys.db.subjects.find? (fun s => s.name = sn) = some subj)
    (hb : sys.db.submissions.find? (subPair stu.id a) = some sub)
    (hassign : sys.db.assignments.any (fun x => x.id = a) = true)
    (hnempty : ¬ (files = [] ∨ files.all (fun f => f.filename = "") = true))
    (hfiles : ∀ f ∈ files, ¬ f.filename = "" → f.size ≤ MAX_FILE_SIZE) :
    ∃ sys2, set_grade sys sid sn a "не зачтено" rev now = .ok sys2 ∧
      sys2.db.submissions = sys.db.submissions.map (fun s =>
        if subPair stu.id a s then
          { s with
            status := some (status_mapping "не зачтено")
            review := rev } else s) ∧
      (submit_work sys2 stu.id a files now2).db.submissions =
        sys2.db.submissions ∧
      (∃ new, (submit_work sys2 stu.id a files now2).db.submission_files =
          sys2.db.submission_files ++ new ∧
        ∀ f ∈ new, f.submission_id = sub.id) ∧
      ∃ n, (submit_work sys2 stu.id a files now2).result = .ok n := by
  obtain ⟨g1, g2, g3, g4, g5, g6, g7, g8⟩ := set_grade_core_shape sys.db
    sys.disk stu.id subj.id a "не зачтено" rev now
  refine ⟨_, set_grade_eq_ok sys sid sn a "не зачтено" rev now cid stu subj
    hv hs hj, g5, ?_⟩
  set sys2 := set_grade_core sys.db sys.disk stu.id subj.id a "не зачтено"
    rev now with hsys2
  have hfind2 : sys2.db.submissions.find? (subPair stu.id a) =
      some (if subPair stu.id a sub then
        { sub with
          status := some (status_mapping "не зачтено")
          review := rev } else sub) := by
    rw [g5, find?_map_status_upd, hb]
    rfl
  have hpair : subPair stu.id a sub = true := List.find?_some hb
  rw [if_pos hpair] at hfind2
  have hany2 : sys2.db.submissions.any (subPair stu.id a) = true :=
    List.any_eq_true.mpr ⟨_, List.mem_of_find?_eq_some hfind2,
      List.find?_some hfind2⟩
  have hens2 : ensureSubmission sys2.db stu.id a now2 = sys2.db :=
    ensureSubmission_of_any sys2.db stu.id a now2 hany2
  have hassign2 : sys2.db.assignments.any (fun x => x.id = a) = true := by
    rw [g4]; exact hassign
  rw [submit_work_main sys2 stu.id a files now2 _ hnempty hassign2
    (by rw [hens2]; exact hfind2), hens2]
  obtain ⟨n0, hok⟩ := saveFiles_ok
    ("storage/submissions/" ++ toString stu.id ++ "/" ++ toString a)
    ({ sub with
        status := some (status_mapping "не зачтено")
        review := rev } : SubmissionRow).id now2 files sys2.db sys2.disk 0
    hfiles
  rcases hsave : saveFiles
      ("storage/submissions/" ++ toString stu.id ++ "/" ++ toString a)
      ({ sub with
          status := some (status_mapping "не зачтено")
          review := rev } : SubmissionRow).id now2 files sys2.db sys2.disk 0
    with ⟨db2, disk2, res⟩
  obtain ⟨new, hdb, hnew⟩ := saveFiles_db_shape
    ("storage/submissions/" ++ toString stu.id ++ "/" ++ toString a)
    ({ sub with
        status := some (status_mapping "не зачтено")
        review := rev } : SubmissionRow).id now2 files sys2.db sys2.disk 0
  rw [hsave] at hok hdb
  have hres : res = Except.ok n0 := hok
  subst hres
  have hdb2 : db2 = { sys2.db with
      submission_files := sys2.db.submission_files ++ new
      nextFileId := sys2.db.nextFileId + new.length } := hdb
  subst hdb2
  exact ⟨rfl, ⟨new, rfl, fun f hf => hnew f hf⟩, n0, rfl⟩

/-- Witness for the amended C3 at `sysA`. -/
theorem reject_then_submit_appends_same_row_witness :
    ∃ sys2, set_grade sysA "S1" "Математика" 1 "не зачтено" (some "redo")
        "G1" = .ok sys2 ∧
      sys2.db.submissions = sysA.db.submissions.map (fun s =>
        if subPair 7 1 s then
          { s with
            status := some (status_mapping "не зачтено")
            review := some "redo" } else s) ∧
      (submit_work sys2 7 1 [⟨"new.pdf", 4⟩] "T4").db.submissions =
        sys2.db.submissions ∧
      (∃ new, (submit_work sys2 7 1 [⟨"new.pdf", 4⟩] "T4").db.submission_files =
          sys2.db.submission_files ++ new ∧
        ∀ f ∈ new, f.submission_id =
          (⟨10, 7, 1, none, none, "T0"⟩ : SubmissionRow).id) ∧
      ∃ n, (submit_work sys2 7 1 [⟨"new.pdf", 4⟩] "T4").result = .ok n := by
  have h := reject_then_submit_appends_same_row sysA "S1" "Математика" 1
    (some "redo") "G1" "S1" ⟨7, "S1", "2001-05-15", "Иванов", "Иван"⟩
    ⟨3, "Математика"⟩ ⟨10, 7, 1, none, none, "T0"⟩ [⟨"new.pdf", 4⟩] "T4"
    (by decide) (by decide) (by decide) (by decide) (by decide) (by decide)
    (by decide)
  exact h

/-! ### upsertGrade lemmas -/

theorem gradePair_iff (u j : Nat) (g : GradeRow) :
    gradePair u j g = true ↔ g.student_id = u ∧ g.subject_id = j := by
  simp [gradePair]

/-- Every row of the upserted table that carries the pair carries
exactly the upserted values. -/
theorem upsert_pair_fields (gs : List GradeRow) (u j : Nat)
    (gv : Option Nat) (l : String) (rev : Option String) (now : String) :
    ∀ g ∈ upsertGrade gs u j gv l rev now, gradePair u j g = true →
      g = ⟨u, j, gv, l, rev, now⟩ := by
  unfold upsertGrade
  by_cases hany : gs.any (gradePair u j) = true
  · rw [if_pos hany]
    intro g hg hpair
    obtain ⟨x, hx, rfl⟩ := List.mem_map.mp hg
    by_cases hp : gradePair u j x = true
    · rw [if_pos hp]
      obtain ⟨h1, h2⟩ := (gradePair_iff u j x).mp hp
      cases x
      simp only at h1 h2
      simp [h1, h2]
    · rw [if_neg hp] at hpair
      exact absurd hpair hp
  · rw [if_neg hany]
    intro g hg hpair
    rcases List.mem_append.mp hg with h | h
    · exact absurd hpair (fun hp =>
        hany (List.any_eq_true.mpr ⟨g, h, hp⟩))
    · rw [List.mem_singleton.mp h]

/-- The upserted table always contains a row carrying the pair. -/
theorem upsert_pair_exists (gs : List GradeRow) (u j : Nat)
    (gv : Option Nat) (l : String) (rev : Option String) (now : String) :
    ∃ g ∈ upsertGrade gs u j gv l rev now, gradePair u j g = true := by
  unfold upsertGrade
  by_cases hany : gs.any (gradePair u j) = true
  · rw [if_pos hany]
    obtain ⟨x, hx, hp⟩ := List.any_eq_true.mp hany
    refine ⟨(if gradePair u j x then
      { x with
        grade := gv
        status := l
        review := rev
        graded_at := now } else x), List.mem_map_of_mem _ hx, ?_⟩
    rw [if_pos hp]
    exact (gradePair_iff u j _).mpr ⟨(gradePair_iff u j x).mp hp |>.1,
      (gradePair_iff u j x).mp hp |>.2⟩
  · rw [if_neg hany]
    exact ⟨⟨u, j, gv, l, rev, now⟩,
      List.mem_append_right _ (List.mem_singleton.mpr rfl),
      by simp [gradePair]⟩

/-- Filtering the pair commutes with the in-place update map. -/
theorem filter_map_grade_upd (u j : Nat) (gv : Option Nat) (l : String)
    (rev : Option String) (now : String) :
    ∀ gs : List GradeRow,
      (gs.map (fun g => if gradePair u j g then
        { g with
          grade := gv
          status := l
          review := rev
          graded_at := now } else g)).filter (gradePair u j) =
      (gs.filter (gradePair u j)).map (fun g => if gradePair u j g then
        { g with
          grade := gv
          status := l
          review := rev
          graded_at := now } else g) := by
  intro gs
  induction gs with
  | nil => rfl
  | cons x t ih =>
    by_cases hp : gradePair u j x = true
    · have hp2 : gradePair u j ({ x with
          grade := gv
          status := l
          review := rev
          graded_at := now } : GradeRow) = true := hp
      rw [List.map_cons, if_pos hp, List.filter_cons_of_pos hp2,
        List.filter_cons_of_pos hp, List.map_cons, if_pos hp, ih]
    · rw [List.map_cons, if_neg hp, List.filter_cons_of_neg (by simpa using hp),
        List.filter_cons_of_neg (by simpa using hp), ih]

/-- With at most one row per pair before the call (the schema's unique
key), the upsert leaves exactly one row for the pair, holding the new
values. -/
theorem upsert_filter_pair (gs : List GradeRow) (u j : Nat)
    (gv : Option Nat) (l : String) (rev : Option String) (now : String)
    (hWF : (gs.filter (gradePair u j)).length ≤ 1) :
    (upsertGrade gs u j gv l rev now).filter (gradePair u j) =
      [⟨u, j, gv, l, rev, now⟩] := by
  unfold upsertGrade
  by_cases hany : gs.any (gradePair u j) = true
  · rw [if_pos hany, filter_map_grade_upd]
    obtain ⟨x, hx, hp⟩ := List.any_eq_true.mp hany
    have hxf : x ∈ gs.filter (gradePair u j) := List.mem_filter.mpr ⟨hx, hp⟩
    have hlen : (gs.filter (gradePair u j)).length = 1 := by
      have : 0 < (gs.filter (gradePair u j)).length :=
        List.length_pos.mpr (List.ne_nil_of_mem hxf)
      omega
    obtain ⟨y, hy⟩ := List.length_eq_one.mp hlen
    have hyp : gradePair u j y = true :=
      (List.mem_filter.mp (hy ▸ List.mem_singleton.mpr rfl : y ∈ _)).2
    rw [hy, List.map_singleton, if_pos hyp]
    obtain ⟨h1, h2⟩ := (gradePair_iff u j y).mp hyp
    cases y
    simp only at h1 h2
    simp [h1, h2]
  · rw [if_neg hany, List.filter_append]
    have h0 : gs.filter (gradePair u j) = [] :=
      List.filter_eq_nil_iff.mpr (fun g hg hp =>
        hany (List.any_eq_true.mpr ⟨g, hg, hp⟩))
    rw [h0]
    simp [gradePair]

/-- When a pair row already exists, the upsert is an in-place update
and does not change the table's size. -/
theorem upsert_length_of_any (gs : List GradeRow) (u j : Nat)
    (gv : Option Nat) (l : String) (rev : Option String) (now : String)
    (hany : gs.any (gradePair u j) = true) :
    (upsertGrade gs u j gv l rev now).length = gs.length := by
  unfold upsertGrade
  rw [if_pos hany]
  exact List.length_map _ _

/-! ### C5 -/

/-- C5: `status_mapping` realises exactly the fixed label table with
"submitted" for every unrecognized label, and a successful
`set_grade` upserts a Grade row whose grade is 100 exactly for the
approval synonyms ("зачёт"/"сдано") and null otherwise, whose status is
the raw label, and sets the pair's Submission status to the mapped
value. -/
theorem grade_label_mapping (sys : Sys) (sid sn : String) (a : Nat)
    (l : String) (rev : Option String) (now cid : String)
    (stu : StudentRow) (subj : SubjectRow)
    (hv : validate_id sid = .ok cid)
    (hs : sys.db.students.find? (fun s => s.student_id = cid) = some stu)
    (hj : sys.db.subjects.find? (fun s => s.name = sn) = some subj) :
    status_mapping l =
      (if l = "зачёт" ∨ l = "сдано" then "approved"
       else if l = "не зачтено" ∨ l = "не допущен" ∨ l = "не сдано" then
         "rejected"
       else if l = "принят на рассмотрение" then "in_review"
       else "submitted") ∧
    ∃ sys2, set_grade sys sid sn a l rev now = .ok sys2 ∧
      (∃ g ∈ sys2.db.grades, gradePair stu.id subj.id g = true) ∧
      (∀ g ∈ sys2.db.grades, gradePair stu.id subj.id g = true →
        g.grade = (if l = "зачёт" ∨ l = "сдано" then some 100 else none) ∧
        g.status = l ∧ g.review = rev ∧ g.graded_at = now) ∧
      (∀ s ∈ sys2.db.submissions, subPair stu.id a s = true →
        s.status = some (status_mapping l)) := by
  constructor
  · by_cases h1 : l = "зачёт"
    · subst h1; decide
    by_cases h2 : l = "сдано"
    · subst h2; decide
    by_cases h3 : l = "не зачтено"
    · subst h3; decide
    by_cases h4 : l = "не допущен"
    · subst h4; decide
    by_cases h5 : l = "не сдано"
    · subst h5; decide
    by_cases h6 : l = "принят на рассмотрение"
    · subst h6; decide
    simp [status_mapping, h1, h2, h3, h4, h5, h6]
  · obtain ⟨g1, g2, g3, g4, g5, g6, g7, g8⟩ := set_grade_core_shape sys.db
      sys.disk stu.id subj.id a l rev now
    refine ⟨_, set_grade_eq_ok sys sid sn a l rev now cid stu subj hv hs hj,
      ?_, ?_, ?_⟩
    · rw [g6]
      exact upsert_pair_exists _ _ _ _ _ _ _
    · rw [g6]
      intro g hg hp
      rw [upsert_pair_fields _ _ _ _ _ _ _ g hg hp]
      exact ⟨rfl, rfl, rfl, rfl⟩
    · rw [g5]
      intro s hs2 hp
      obtain ⟨x, hx, rfl⟩ := List.mem_map.mp hs2
      by_cases hpx : subPair stu.id a x = true
      · rw [if_pos hpx]
      · rw [if_neg hpx] at hp
        exact absurd hp hpx

/-- Witness for C5 at `sysA` with the label "не допущен". -/
theorem grade_label_mapping_witness :
    status_mapping "не допущен" =
      (if ("не допущен" : String) = "зачёт" ∨ ("не допущен" : String) = "сдано"
        then "approved"
       else if ("не допущен" : String) = "не зачтено" ∨
          ("не допущен" : String) = "не допущен" ∨
          ("не допущен" : String) = "не сдано" then "rejected"
       else if ("не допущен" : String) = "принят на рассмотрение" then
         "in_review"
       else "submitted") ∧
    ∃ sys2, set_grade sysA "S1" "Математика" 1 "не допущен" (some "r") "G1" =
        .ok sys2 ∧
      (∃ g ∈ sys2.db.grades, gradePair 7 3 g = true) ∧
      (∀ g ∈ sys2.db.grades, gradePair 7 3 g = true →
        g.grade = (if ("не допущен" : String) = "зачёт" ∨
            ("не допущен" : String) = "сдано" then some 100 else none) ∧
        g.status = "не допущен" ∧ g.review = some "r" ∧ g.graded_at = "G1") ∧
      (∀ s ∈ sys2.db.submissions, subPair 7 1 s = true →
        s.status = some (status_mapping "не допущен")) :=
  grade_label_mapping sysA "S1" "Математика" 1 "не допущен" (some "r") "G1"
    "S1" ⟨7, "S1", "2001-05-15", "Иванов", "Иван"⟩ ⟨3, "Математика"⟩
    (by decide) (by decide) (by decide)

/-! ### C6 -/

/-- C6: calling `set_grade` twice with identical arguments (the clock
aside) leaves exactly one Grade row for the (student, subject) pair,
holding the latest values; the second call updates in place and does
not grow the grades table. -/
theorem grade_upsert_idempotent (sys : Sys) (sid sn : String) (a : Nat)
    (l : String) (rev : Option String) (now1 now2 cid : String)
    (stu : StudentRow) (subj : SubjectRow)
    (hv : validate_id sid = .ok cid)
    (hs : sys.db.students.find? (fun s => s.student_id = cid) = some stu)
    (hj : sys.db.subjects.find? (fun s => s.name = sn) = some subj)
    (hWF : (sys.db.grades.filter (gradePair stu.id subj.id)).length ≤ 1) :
    ∃ sys1 sys2,
      set_grade sys sid sn a l rev now1 = .ok sys1 ∧
      set_grade sys1 sid sn a l rev now2 = .ok sys2 ∧
      sys1.db.grades.filter (gradePair stu.id subj.id) =
        [⟨stu.id, subj.id,
          (if l = "зачёт" ∨ l = "сдано" then some 100 else none),
          l, rev, now1⟩] ∧
      sys2.db.grades.filter (gradePair stu.id subj.id) =
        [⟨stu.id, subj.id,
          (if l = "зачёт" ∨ l = "сдано" then some 100 else none),
          l, rev, now2⟩] ∧
      sys2.db.grades.length = sys1.db.grades.length := by
  obtain ⟨g1, g2, g3, g4, g5, g6, g7, g8⟩ := set_grade_core_shape sys.db
    sys.disk stu.id subj.id a l rev now1
  set sys1 := set_grade_core sys.db sys.disk stu.id subj.id a l rev now1
    with hsys1
  have hs' : sys1.db.students.find? (fun s => s.student_id = cid) =
      some stu := by rw [g1]; exact hs
  have hj' : sys1.db.subjects.find? (fun s => s.name = sn) = some subj := by
    rw [g3]; exact hj
  obtain ⟨k1, k2, k3, k4, k5, k6, k7, k8⟩ := set_grade_core_shape sys1.db
    sys1.disk stu.id subj.id a l rev now2
  have hfil1 : sys1.db.grades.filter (gradePair stu.id subj.id) =
      [⟨stu.id, subj.id,
        (if l = "зачёт" ∨ l = "сдано" then some 100 else none),
        l, rev, now1⟩] := by
    rw [g6]
    exact upsert_filter_pair _ _ _ _ _ _ _ hWF
  have hWF1 : (sys1.db.grades.filter (gradePair stu.id subj.id)).length ≤ 1 := by
    rw [hfil1]; simp
  have hany1 : sys1.db.grades.any (gradePair stu.id subj.id) = true := by
    have hmem : (⟨stu.id, subj.id,
        (if l = "зачёт" ∨ l = "сдано" then some 100 else none),
        l, rev, now1⟩ : GradeRow) ∈
        sys1.db.grades.filter (gradePair stu.id subj.id) := by
      rw [hfil1]; exact List.mem_singleton.mpr rfl
    have hm := List.mem_filter.mp hmem
    exact List.any_eq_true.mpr ⟨_, hm.1, hm.2⟩
  refine ⟨sys1, _,
    set_grade_eq_ok sys sid sn a l rev now1 cid stu subj hv hs hj,
    set_grade_eq_ok sys1 sid sn a l rev now2 cid stu subj hv hs' hj',
    hfil1, ?_, ?_⟩
  · rw [k6]
    exact upsert_filter_pair _ _ _ _ _ _ _ hWF1
  · rw [k6]
    exact upsert_length_of_any _ _ _ _ _ _ _ hany1

/-- Witness for C6 at `sysA` (no prior grade row; the second call
updates the row created by the first). -/
theorem grade_upsert_idempotent_witness :
    ∃ sys1 sys2,
      set_grade sysA "S1" "Математика" 1 "зачёт" none "G1" = .ok sys1 ∧
      set_grade sys1 "S1" "Математика" 1 "зачёт" none "G2" = .ok sys2 ∧
      sys1.db.grades.filter (gradePair 7 3) =
        [⟨7, 3, (if ("зачёт" : String) = "зачёт" ∨ ("зачёт" : String) = "сдано"
          then some 100 else none), "зачёт", none, "G1"⟩] ∧
      sys2.db.grades.filter (gradePair 7 3) =
        [⟨7, 3, (if ("зачёт" : String) = "зачёт" ∨ ("зачёт" : String) = "сдано"
          then some 100 else none), "зачёт", none, "G2"⟩] ∧
      sys2.db.grades.length = sys1.db.grades.length :=
  grade_upsert_idempotent sysA "S1" "Математика" 1 "зачёт" none "G1" "G2"
    "S1" ⟨7, "S1", "2001-05-15", "Иванов", "Иван"⟩ ⟨3, "Математика"⟩
    (by decide) (by decide) (by decide) (by decide)

/-! ### C7 -/

/-- C7: for any two login attempts with a well-formed external id and a
normalizable birth date whose pair matches no stored row — wrong id,
wrong date, or both — the handler returns one and the same generic 401
signal, for the student and the teacher login alike, so the caller
cannot learn which credential component failed. -/
theorem login_no_credential_leak :
    (∀ (db1 db2 : DB) (id1 pw1 id2 pw2 c1 b1 c2 b2 : String),
      validate_id id1 = .ok c1 → normalize_birth_date pw1 = some b1 →
      db1.students.find?
        (fun s => s.student_id = c1 && s.birth_date = b1) = none →
      validate_id id2 = .ok c2 → normalize_birth_date pw2 = some b2 →
      db2.students.find?
        (fun s => s.student_id = c2 && s.birth_date = b2) = none →
      login db1 id1 pw1 = login db2 id2 pw2 ∧
      login db1 id1 pw1 =
        .error ⟨401, "Неверный номер студенческого или дата рождения"⟩) ∧
    (∀ (db1 db2 : DB) (id1 pw1 id2 pw2 c1 b1 c2 b2 : String),
      validate_id id1 = .ok c1 → normalize_birth_date pw1 = some b1 →
      db1.teachers.find?
        (fun t => t.teacher_id = c1 && t.birth_date = b1) = none →
      validate_id id2 = .ok c2 → normalize_birth_date pw2 = some b2 →
      db2.teachers.find?
        (fun t => t.teacher_id = c2 && t.birth_date = b2) = none →
      teacher_login db1 id1 pw1 = teacher_login db2 id2 pw2 ∧
      teacher_login db1 id1 pw1 =
        .error ⟨401, "Неверный ID преподавателя или дата рождения"⟩) := by
  constructor
  · intro db1 db2 id1 pw1 id2 pw2 c1 b1 c2 b2 hv1 hn1 hf1 hv2 hn2 hf2
    have e1 : login db1 id1 pw1 =
        .error ⟨401, "Неверный номер студенческого или дата рождения"⟩ := by
      simp only [login, hv1, hn1, hf1]
    have e2 : login db2 id2 pw2 =
        .error ⟨401, "Неверный номер студенческого или дата рождения"⟩ := by
      simp only [login, hv2, hn2, hf2]
    exact ⟨e1.trans e2.symm, e1⟩
  · intro db1 db2 id1 pw1 id2 pw2 c1 b1 c2 b2 hv1 hn1 hf1 hv2 hn2 hf2
    have e1 : teacher_login db1 id1 pw1 =
        .error ⟨401, "Неверный ID преподавателя или дата рождения"⟩ := by
      simp only [teacher_login, hv1, hn1, hf1]
    have e2 : teacher_login db2 id2 pw2 =
        .error ⟨401, "Неверный ID преподавателя или дата рождения"⟩ := by
      simp only [teacher_login, hv2, hn2, hf2]
    exact ⟨e1.trans e2.symm, e1⟩

/-- Witness for C7: at `dbA`, a wrong external id ("S2") and a wrong
birth date (16.05.2001 for student "S1") produce the same 401 answer;
likewise for the teacher login. -/
theorem login_no_credential_leak_witness :
    (login dbA "S2" "15.05.2001" = login dbA "S1" "16.05.2001" ∧
      login dbA "S2" "15.05.2001" =
        .error ⟨401, "Неверный номер студенческого или дата рождения"⟩) ∧
    (teacher_login dbA "T-X" "12.03.1975" =
        teacher_login dbA "T-MATH-01" "13.03.1975" ∧
      teacher_login dbA "T-X" "12.03.1975" =
        .error ⟨401, "Неверный ID преподавателя или дата рождения"⟩) :=
  ⟨login_no_credential_leak.1 dbA dbA "S2" "15.05.2001" "S1" "16.05.2001"
      "S2" "2001-05-15" "S1" "2001-05-16"
      (by decide) (by decide) (by decide) (by decide) (by decide) (by decide),
    login_no_credential_leak.2 dbA dbA "T-X" "12.03.1975" "T-MATH-01"
      "13.03.1975" "T-X" "1975-03-12" "T-MATH-01" "1975-03-13"
      (by decide) (by decide) (by decide) (by decide) (by decide) (by decide)⟩

/-! ### C9 -/

/-- C9: any requested path containing ".." or starting with "/" is
rejected with the HTTP 400 "Некорректный путь" signal, whatever the
filesystem oracles answer — i.e. before any filesystem access. -/
theorem download_traversal_rejected (is_file : String → Bool)
    (resolveRel : String → Option String) (path : String)
    (h : hasDotDot path.toList = true ∨ startsWithSlash path = true) :
    download_file is_file resolveRel path =
      .error ⟨400, "Некорректный путь"⟩ := by
  unfold download_file
  rcases h with h | h
  · rw [h]
    simp
  · rw [h]
    simp

/-- Witness for C9: "../../etc/passwd" is rejected even on a filesystem
whose oracles would accept everything. -/
theorem download_traversal_rejected_witness :
    download_file (fun _ => true) (fun _ => some "x") "../../etc/passwd" =
      .error ⟨400, "Некорректный путь"⟩ :=
  download_traversal_rejected (fun _ => true) (fun _ => some "x")
    "../../etc/passwd" (Or.inl (by decide))

/-! ### C8 -/

/-- Counterexample for C8 as stated: "link/secret.txt" is free of ".."
and does not start with "/", the resolver reports it escapes the
storage root, and the file does not exist at the unresolved path — yet
`download_file` answers 404 NotFound, not a Forbidden signal, because
the existence check runs before the containment check. -/
theorem download_escape_cex :
    hasDotDot "link/secret.txt".toList = false ∧
    startsWithSlash "link/secret.txt" = false ∧
    download_file (fun _ => false) (fun _ => none) "link/secret.txt" =
      .error ⟨404, "Файл не найден"⟩ := by
  decide

/-- C8 (amended): for a path free of ".." and not starting with "/"
whose resolved form is not under the storage root, the handler answers
the HTTP 400 "Доступ запрещён" access-denied signal only when the
unresolved path names an existing regular file; when it does not, the
existence check fires first and the handler answers 404 NotFound, so
the containment failure is observable only behind an existing file. -/
theorem download_escape_check_order (is_file : String → Bool)
    (resolveRel : String → Option String) (path : String)
    (hdd : hasDotDot path.toList = false)
    (hsl : startsWithSlash path = false)
    (hres : resolveRel ("storage/" ++ path) = none) :
    download_file is_file resolveRel path =
      (if is_file ("storage/" ++ path) then .error ⟨400, "Доступ запрещён"⟩
       else .error ⟨404, "Файл не найден"⟩) := by
  have hdd2 : hasDotDot path.data = false := hdd
  by_cases hf : is_file ("storage/" ++ path) = true
  · simp [download_file, hdd2, hsl, hres, hf]
  · simp [download_file, hdd2, hsl, hf]

/-- Witness for the amended C8: same escaping path, but over an
existing file, yields the 400 access-denied answer. -/
theorem download_escape_check_order_witness :
    download_file (fun _ => true) (fun _ => none) "link/secret.txt" =
      (if (fun (_ : String) => true) ("storage/" ++ "link/secret.txt") then
        .error ⟨400, "Доступ запрещён"⟩
       else .error ⟨404, "Файл не найден"⟩) :=
  download_escape_check_order (fun _ => true) (fun _ => none)
    "link/secret.txt" (by decide) (by decide) (by decide)

/-! ### C10 -/

/-- With no submission row for the pair, the cleanup is a no-op. -/
theorem rejectionCleanup_of_none (db : DB) (disk : List String) (u a : Nat)
    (h : db.submissions.find? (subPair u a) = none) :
    rejectionCleanup db disk u a = (db, disk) := by
  simp only [rejectionCleanup, h]

/-- With no submission row for the pair, the status/review UPDATE
touches zero rows. -/
theorem map_status_upd_id (u a : Nat) (st rev : Option String)
    (l0 : List SubmissionRow)
    (h : l0.find? (subPair u a) = none) :
    l0.map (fun s => if subPair u a s then
      { s with
        status := st
        review := rev } else s) = l0 := by
  have hall := List.find?_eq_none.mp h
  have hcongr := List.map_congr_left
    (fun x (hx : x ∈ l0) =>
      (if_neg (by simpa using hall x hx) :
        (if subPair u a x then
          ({ x with
            status := st
            review := rev } : SubmissionRow) else x) = x))
  rw [hcongr, List.map_id']

/-- C10: `set_grade` resolves only the student and the subject — a
missing student or missing subject is the only NotFound — and never
checks the assignment; with an assignment id that has no Submission for
the student (in particular any nonexistent assignment id), the call
still succeeds, the submissions table, file rows and disk are untouched
(the UPDATE matches zero rows and the cleanup finds nothing), and the
Grade row for (student, subject) is still upserted. -/
theorem grade_unknown_assignment_ok :
    (∀ (sys : Sys) (sid sn : String) (a : Nat) (l : String)
        (rev : Option String) (now cid : String),
      validate_id sid = .ok cid →
      sys.db.students.find? (fun s => s.student_id = cid) = none →
      set_grade sys sid sn a l rev now =
        .error ⟨404, "Студент не найден"⟩) ∧
    (∀ (sys : Sys) (sid sn : String) (a : Nat) (l : String)
        (rev : Option String) (now cid : String) (stu : StudentRow),
      validate_id sid = .ok cid →
      sys.db.students.find? (fun s => s.student_id = cid) = some stu →
      sys.db.subjects.find? (fun s => s.name = sn) = none →
      set_grade sys sid sn a l rev now =
        .error ⟨404, "Предмет не найден"⟩) ∧
    (∀ (sys : Sys) (sid sn : String) (a : Nat) (l : String)
        (rev : Option String) (now cid : String) (stu : StudentRow)
        (subj : SubjectRow),
      validate_id sid = .ok cid →
      sys.db.students.find? (fun s => s.student_id = cid) = some stu →
      sys.db.subjects.find? (fun s => s.name = sn) = some subj →
      sys.db.submissions.find? (subPair stu.id a) = none →
      ∃ sys2, set_grade sys sid sn a l rev now = .ok sys2 ∧
        sys2.db.submissions = sys.db.submissions ∧
        sys2.db.submission_files = sys.db.submission_files ∧
        sys2.disk = sys.disk ∧
        sys2.db.grades = upsertGrade sys.db.grades stu.id subj.id
          (if l = "зачёт" ∨ l = "сдано" then some 100 else none)
          l rev now) := by
  refine ⟨?_, ?_, ?_⟩
  · intro sys sid sn a l rev now cid hv hs
    exact set_grade_no_student sys sid sn a l rev now cid hv hs
  · intro sys sid sn a l rev now cid stu hv hs hj
    exact set_grade_no_subject sys sid sn a l rev now cid stu hv hs hj
  · intro sys sid sn a l rev now cid stu subj hv hs hj hnone
    obtain ⟨g1, g2, g3, g4, g5, g6, g7, g8⟩ := set_grade_core_shape sys.db
      sys.disk stu.id subj.id a l rev now
    refine ⟨_, set_grade_eq_ok sys sid sn a l rev now cid stu subj hv hs hj,
      ?_, ?_, ?_, g6⟩
    · rw [g5]
      exact map_status_upd_id stu.id a _ rev sys.db.submissions hnone
    · rw [g7]
      by_cases hl : l = "не зачтено"
      · rw [if_pos hl, rejectionCleanup_of_none sys.db sys.disk stu.id a hnone]
      · rw [if_neg hl]
    · rw [g8]
      by_cases hl : l = "не зачтено"
      · rw [if_pos hl, rejectionCleanup_of_none sys.db sys.disk stu.id a hnone]
      · rw [if_neg hl]

/-- Witness for C10 at `sysA`: unknown student "NOPE", unknown subject
"Физика", and grading assignment 99 (which does not exist and has no
submission) still succeeds and upserts the grade. -/
theorem grade_unknown_assignment_ok_witness :
    set_grade sysA "NOPE" "Математика" 1 "зачёт" none "G1" =
      .error ⟨404, "Студент не найден"⟩ ∧
    set_grade sysA "S1" "Физика" 1 "зачёт" none "G1" =
      .error ⟨404, "Предмет не найден"⟩ ∧
    ∃ sys2, set_grade sysA "S1" "Математика" 99 "сдано" none "G5" =
        .ok sys2 ∧
      sys2.db.submissions = sysA.db.submissions ∧
      sys2.db.submission_files = sysA.db.submission_files ∧
      sys2.disk = sysA.disk ∧
      sys2.db.grades = upsertGrade sysA.db.grades 7 3
        (if ("сдано" : String) = "зачёт" ∨ ("сдано" : String) = "сдано" then
          some 100 else none) "сдано" none "G5" :=
  ⟨grade_unknown_assignment_ok.1 sysA "NOPE" "Математика" 1 "зачёт" none "G1"
      "NOPE" (by decide) (by decide),
    grade_unknown_assignment_ok.2.1 sysA "S1" "Физика" 1 "зачёт" none "G1"
      "S1" ⟨7, "S1", "2001-05-15", "Иванов", "Иван"⟩
      (by decide) (by decide) (by decide),
    grade_unknown_assignment_ok.2.2 sysA "S1" "Математика" 99 "сдано" none
      "G5" "S1" ⟨7, "S1", "2001-05-15", "Иванов", "Иван"⟩ ⟨3, "Математика"⟩
      (by decide) (by decide) (by decide) (by decide)⟩

end StudentCabinet








